import Mathlib

/-!
Verification of the momentum-backend risk-scoring engine and engagement
analytics (`app/risk_scoring.py`, `app/routers/analytics.py`).

Shallow embedding conventions:
* Timestamps (`DateTime` columns) are integers counting seconds;
  `secondsPerDay = 86400`.  Python's `timedelta.days` floors toward
  negative infinity, which is `Int.fdiv` here, and `.date()` is
  `Int.fdiv ts secondsPerDay`.
* Python floats are modelled as rationals (`ℚ`).
* SQL comparison against a nullable column is three-valued: a row whose
  column is NULL never satisfies `col >= x` / `col < x`.  Nullable
  columns are `Option Int`, and the query filters pattern-match so that
  a `none` row is excluded, exactly as the SQL predicate behaves.
* An ORM session commit is modelled as an atomic step: the pending
  writes of `update_student_risk_score` are applied together when the
  commit succeeds (`commitOk = true`) and not at all when it fails.
-/

namespace Momentum

/-- Seconds in a calendar day (granularity of `datetime` arithmetic). -/
def secondsPerDay : Int := 86400

/-- `RiskScoringEngine.lookback_days` (source line 14). -/
def lookback_days : Int := 14

/-- `TaskStatus` enum from `app/models.py`. -/
inductive TaskStatus where
  | todo
  | doing
  | done
  | overdue
deriving DecidableEq, Repr

/-- `GoalStatus` enum from `app/models.py`. -/
inductive GoalStatus where
  | «open»
  | done
  | paused
deriving DecidableEq, Repr

/-- `Task` row (`app/models.py`): the columns the engine reads.
`due_date` and `completed_at` are nullable. -/
structure Task where
  student_id : Int
  due_date : Option Int
  status : TaskStatus
  completed_at : Option Int
deriving DecidableEq, Repr

/-- `Checkin` row (`app/models.py`): `mood` is nullable, `created_at`
has a server default and is always present. -/
structure Checkin where
  student_id : Int
  mood : Option Int
  created_at : Int
deriving DecidableEq, Repr

/-- `Goal` row (`app/models.py`): `target_date` is nullable. -/
structure Goal where
  student_id : Int
  target_date : Option Int
  status : GoalStatus
deriving DecidableEq, Repr

/-- `Student` row (`app/models.py`): `gpa` is nullable,
`risk_score` defaults to `0.0`. -/
structure Student where
  id : Int
  gpa : Option ℚ
  risk_score : ℚ
deriving DecidableEq, Repr

/-- The six raw risk factors (`factors` dict in
`calculate_student_risk`).  `streak` and `engagement` are Python ints. -/
structure RawFactors where
  overdue_load : ℚ
  mood_trend : ℚ
  streak : Int
  engagement : Int
  goal_velocity : ℚ
  gpa_trend : ℚ
deriving DecidableEq, Repr

/-- The six normalized factors (`normalized_factors` dict). -/
structure NormalizedFactors where
  overdue_load : ℚ
  mood_trend : ℚ
  streak : ℚ
  engagement : ℚ
  goal_velocity : ℚ
  gpa_trend : ℚ
deriving DecidableEq, Repr

/-- Payload stored on a `risk_score_updated` audit event
(`update_student_risk_score`, source lines 262-266). -/
structure EventPayload where
  risk_score : ℚ
  severity : String
  factors : RawFactors
deriving DecidableEq, Repr

/-- `Event` row (`app/models.py`): append-only audit log entry. -/
structure Event where
  student_id : Int
  type : String
  payload : EventPayload
deriving DecidableEq, Repr

/-- The relational state the engine reads and writes. -/
structure DB where
  students : List Student
  tasks : List Task
  checkins : List Checkin
  goals : List Goal
  events : List Event
deriving DecidableEq, Repr

/-- Result dict of `calculate_student_risk` (source lines 60-72). -/
structure RiskResult where
  risk_score : ℚ
  factors : RawFactors
  normalized_factors : NormalizedFactors
  severity : String
deriving DecidableEq, Repr

/-- `Task.status.in_([TaskStatus.TODO, TaskStatus.DOING])`. -/
def isOpenStatus (s : TaskStatus) : Bool :=
  s == TaskStatus.todo || s == TaskStatus.doing

/-- SQL `Task.due_date >= lo` (NULL rows excluded). -/
def dueGE (t : Task) (lo : Int) : Bool :=
  match t.due_date with
  | some d => decide (lo ≤ d)
  | none => false

/-- SQL `Task.due_date < hi` (NULL rows excluded). -/
def dueLT (t : Task) (hi : Int) : Bool :=
  match t.due_date with
  | some d => decide (d < hi)
  | none => false

/-- SQL `Task.completed_at >= lo` (NULL rows excluded). -/
def completedGE (t : Task) (lo : Int) : Bool :=
  match t.completed_at with
  | some d => decide (lo ≤ d)
  | none => false

/-- SQL `Goal.target_date >= lo` (NULL rows excluded — this is the
three-valued-logic fact that makes goals without a target date
invisible to `_calculate_goal_velocity`). -/
def targetGE (g : Goal) (lo : Int) : Bool :=
  match g.target_date with
  | some d => decide (lo ≤ d)
  | none => false

/-- `_calculate_overdue_load` (source lines 74-93): fraction of open
tasks with due date `>= cutoff` that are also overdue (`< now`),
denominator floored to 1. -/
def calculate_overdue_load (db : DB) (sid now : Int) : ℚ :=
  let cutoff := now - lookback_days * secondsPerDay
  let total_open :=
    (db.tasks.filter fun t =>
      t.student_id == sid && (isOpenStatus t.status && dueGE t cutoff)).length
  let overdue :=
    (db.tasks.filter fun t =>
      t.student_id == sid &&
        (isOpenStatus t.status && (dueLT t now && dueGE t cutoff))).length
  (overdue : ℚ) / (max total_open 1 : ℚ)

/-- `_calculate_mood_trend` (source lines 95-128): mean mood in the
current window minus-reversed mean mood in the prior window; 0.0 when
either window has no rated check-ins. -/
def calculate_mood_trend (db : DB) (sid now : Int) : ℚ :=
  let cutoff := now - lookback_days * secondsPerDay
  let current_moods :=
    ((db.checkins.filter fun c =>
        c.student_id == sid &&
          (decide (cutoff ≤ c.created_at) && c.mood.isSome)).filterMap
      fun c => c.mood)
  if current_moods.isEmpty then 0
  else
    let current_avg : ℚ :=
      (current_moods.map fun m => (m : ℚ)).sum / (current_moods.length : ℚ)
    let prior_start := cutoff - lookback_days * secondsPerDay
    let prior_moods :=
      ((db.checkins.filter fun c =>
          c.student_id == sid &&
            (decide (prior_start ≤ c.created_at) &&
              (decide (c.created_at < cutoff) && c.mood.isSome))).filterMap
        fun c => c.mood)
    if prior_moods.isEmpty then 0
    else
      let prior_avg : ℚ :=
        (prior_moods.map fun m => (m : ℚ)).sum / (prior_moods.length : ℚ)
      prior_avg - current_avg

/-- The backward day-by-day scan shared by `_calculate_streak`
(source lines 148-158) and `get_engagement_analytics`
(analytics source lines 70-79): count consecutive days present in
`dates` starting at `asOf`, stop at the first missing day, scan at
most `maxDays` days. -/
def currentStreak (dates : List Int) (asOf : Int) : Nat → Nat
  | 0 => 0
  | n + 1 => if asOf ∈ dates then currentStreak dates (asOf - 1) n + 1 else 0

/-- `datetime.date()` of a timestamp: the calendar-day number. -/
def dateOf (ts : Int) : Int := Int.fdiv ts secondsPerDay

/-- `_calculate_streak` (source lines 130-159): current streak of days
with completed tasks, scanning back `lookback_days` days from today. -/
def calculate_streak (db : DB) (sid now : Int) : Int :=
  let cutoff := now - lookback_days * secondsPerDay
  let completed_tasks :=
    db.tasks.filter fun t =>
      t.student_id == sid && (t.status == TaskStatus.done && completedGE t cutoff)
  if completed_tasks.isEmpty then 0
  else
    let completion_dates := (completed_tasks.filterMap fun t => t.completed_at).map dateOf
    (currentStreak completion_dates (dateOf now) lookback_days.toNat : Int)

/-- `_calculate_engagement` (source lines 161-174): days (floored)
since the most recent in-window check-in; `lookback_days` when there is
none.  The result is negative when the stored timestamp lies in the
future of `now`. -/
def calculate_engagement (db : DB) (sid now : Int) : Int :=
  let cutoff := now - lookback_days * secondsPerDay
  let stamps :=
    (db.checkins.filter fun c =>
      c.student_id == sid && decide (cutoff ≤ c.created_at)).map
      fun c => c.created_at
  match stamps.max? with
  | none => lookback_days
  | some last => Int.fdiv (now - last) secondsPerDay

/-- `_calculate_goal_velocity` (source lines 176-198): among the goals
whose (non-NULL) target date is `>= cutoff`, the fraction that are done
with target date `>= now`; 1.0 when that goal set is empty.  The
`elif not goal.target_date` branch of the source is kept, although no
goal of `recent_goals` can take it. -/
def calculate_goal_velocity (db : DB) (sid now : Int) : ℚ :=
  let cutoff := now - lookback_days * secondsPerDay
  let recent_goals := db.goals.filter fun g => g.student_id == sid && targetGE g cutoff
  if recent_goals.isEmpty then 1
  else
    let completed_on_time :=
      (recent_goals.filter fun g =>
        g.status == GoalStatus.done &&
          (match g.target_date with
           | some d => decide (now ≤ d)
           | none => true)).length
    (completed_on_time : ℚ) / (recent_goals.length : ℚ)

/-- `_calculate_gpa_trend` (source lines 200-210): placeholder, returns
0.0 on every branch. -/
def calculate_gpa_trend (db : DB) (sid : Int) : ℚ :=
  match db.students.find? fun s => s.id == sid with
  | none => 0
  | some st =>
    match st.gpa with
    | none => 0
    | some _ => 0

/-- `_normalize_overdue_load` (source lines 212-214). -/
def normalize_overdue_load (overdue_load : ℚ) : ℚ :=
  min 1 overdue_load

/-- `_normalize_mood_trend` (source lines 216-219). -/
def normalize_mood_trend (mood_trend : ℚ) : ℚ :=
  max 0 (min 1 ((mood_trend + 2) / 4))

/-- `_normalize_streak` (source lines 221-225). -/
def normalize_streak (streak : Int) : ℚ :=
  1 - min 1 ((streak : ℚ) / 7)

/-- `_normalize_engagement` (source lines 227-229): the docstring says
"[0, 1] range", but a negative gap maps below 0. -/
def normalize_engagement (engagement_gap : Int) : ℚ :=
  min 1 ((engagement_gap : ℚ) / 7)

/-- `_normalize_goal_velocity` (source lines 231-233). -/
def normalize_goal_velocity (goal_velocity : ℚ) : ℚ :=
  1 - goal_velocity

/-- `_normalize_gpa_trend` (source lines 235-238): constant 0.5. -/
def normalize_gpa_trend (_gpa_trend : ℚ) : ℚ :=
  1 / 2

/-- Factor weights (`self.weights`, source lines 15-22). -/
def w_overdue_load : ℚ := 30 / 100

def w_mood_trend : ℚ := 20 / 100

def w_streak : ℚ := 15 / 100

def w_engagement : ℚ := 15 / 100

def w_goal_velocity : ℚ := 10 / 100

def w_gpa_trend : ℚ := 10 / 100

/-- The weighted sum of source lines 52-55. -/
def weighted_sum (n : NormalizedFactors) : ℚ :=
  w_overdue_load * n.overdue_load + w_mood_trend * n.mood_trend +
    w_streak * n.streak + w_engagement * n.engagement +
    w_goal_velocity * n.goal_velocity + w_gpa_trend * n.gpa_trend

/-- `_get_severity` (source lines 240-247). -/
def get_severity (risk_score : ℚ) : String :=
  if risk_score < 33 / 100 then "low"
  else if risk_score < 66 / 100 then "medium"
  else "high"

/-- The result dict built by `calculate_student_risk` once the student
exists (source lines 33-72). -/
def risk_breakdown (db : DB) (sid now : Int) : RiskResult :=
  let overdue_load := calculate_overdue_load db sid now
  let mood_trend := calculate_mood_trend db sid now
  let streak := calculate_streak db sid now
  let engagement := calculate_engagement db sid now
  let goal_velocity := calculate_goal_velocity db sid now
  let gpa_trend := calculate_gpa_trend db sid
  let normalized : NormalizedFactors :=
    { overdue_load := normalize_overdue_load overdue_load
      mood_trend := normalize_mood_trend mood_trend
      streak := normalize_streak streak
      engagement := normalize_engagement engagement
      goal_velocity := normalize_goal_velocity goal_velocity
      gpa_trend := normalize_gpa_trend gpa_trend }
  let risk_score := max 0 (min 1 (weighted_sum normalized))
  { risk_score := risk_score
    factors :=
      { overdue_load := overdue_load
        mood_trend := mood_trend
        streak := streak
        engagement := engagement
        goal_velocity := goal_velocity
        gpa_trend := gpa_trend }
    normalized_factors := normalized
    severity := get_severity risk_score }

/-- `calculate_student_risk` (source lines 24-72): `ValueError` when
the student id does not resolve is `none`. -/
def calculate_student_risk (db : DB) (sid now : Int) : Option RiskResult :=
  match db.students.find? fun s => s.id == sid with
  | none => none
  | some _ => some (risk_breakdown db sid now)

/-- The audit event appended by `update_student_risk_score`
(source lines 259-267). -/
def mkRiskEvent (sid : Int) (rd : RiskResult) : Event :=
  { student_id := sid
    type := "risk_score_updated"
    payload :=
      { risk_score := rd.risk_score
        severity := rd.severity
        factors := rd.factors } }

/-- The two pending writes of `update_student_risk_score` (source
lines 256 and 268) as applied together by the commit: the student's
score is overwritten and the audit event is appended. -/
def apply_update (db : DB) (sid : Int) (rd : RiskResult) : DB :=
  { db with
    students :=
      db.students.map fun s =>
        if s.id == sid then { s with risk_score := rd.risk_score } else s
    events := db.events ++ [mkRiskEvent sid rd] }

/-- `update_student_risk_score` (source lines 249-271).  `commitOk`
is the environment's verdict on the single `db.commit()`: the score
overwrite and the event append are pending session state until then,
so a failed commit leaves the store untouched and a successful one
applies both. -/
def update_student_risk_score (db : DB) (sid now : Int) (commitOk : Bool) :
    Option RiskResult × DB :=
  match calculate_student_risk db sid now with
  | none => (none, db)
  | some rd =>
    match db.students.find? fun s => s.id == sid with
    | none => (some rd, db)
    | some _ =>
      if commitOk then (some rd, apply_update db sid rd)
      else (none, db)

/-- The stored risk score of a student, as a reader sees it. -/
def stored_risk_score (db : DB) (sid : Int) : Option ℚ :=
  (db.students.find? fun s => s.id == sid).map fun s => s.risk_score

/-- Default `threshold` argument of `get_high_risk_students`
(source line 273). -/
def high_risk_default_threshold : ℚ := 66 / 100

/-- `get_high_risk_students` (source lines 273-290): a read-only filter
of the currently stored scores; each hit is reported with its identity
and stored score. -/
def get_high_risk_students (db : DB) (threshold : ℚ) : List (Int × ℚ) :=
  (db.students.filter fun s => decide (threshold ≤ s.risk_score)).map
    fun s => (s.id, s.risk_score)

/-- Lookback window of `get_engagement_analytics`
(analytics source line 56): 30 days, distinct from the engine's 14. -/
def analytics_lookback_days : Int := 30

/-- Column attributes declared on the ORM `Task` model
(`app/models.py` lines 163-172; the `tasks` table of the initial
migration lists the same columns): there is no `created_at`. -/
def taskModelColumns : List String :=
  ["id", "goal_id", "student_id", "title", "due_date", "status", "completed_at"]

/-- Python attribute access `Task.name` on the ORM model class: a
declared column resolves to itself, any other name raises
`AttributeError`, modelled as `none`. -/
def taskModelAttr (name : String) : Option String :=
  if name ∈ taskModelColumns then some name else none

/-- The message of the `AttributeError` Python raises at analytics
source line 109 when the query filter evaluates `Task.created_at`. -/
def taskCreatedAtError : String :=
  "AttributeError: type object Task has no attribute created_at"

/-- The task-completion-rate fragment of `get_engagement_analytics`
(analytics source lines 106-121) over the ORM `Task` rows.  Building
the `total_tasks` query evaluates `Task.created_at >= cutoff_date`
(line 109) while constructing the filter, and `taskModelAttr` has no
`created_at`, so the request dies with `AttributeError` before any
count or division runs: every execution returns the error and no rate
is produced.  No reachable branch computes a rate — a `Task` row
carries no creation timestamp the denominator filter could compare. -/
def task_completion_rate (_tasks : List Task) (_sid _now : Int) : Except String ℚ :=
  Except.error taskCreatedAtError

/-! ### Helper lemmas -/

/-- A query scoped to a student returns nothing when the student-only
query already returns nothing. -/
theorem filter_sub_nil {α : Type} {l : List α} {p : α → Bool}
    (h : l.filter p = []) (q : α → Bool)
    (himp : ∀ a, q a = true → p a = true) : l.filter q = [] := by
  rw [List.filter_eq_nil_iff] at h ⊢
  intro a ha hq
  exact h a ha (himp a hq)

/-- `_calculate_gpa_trend` is the constant 0 on every branch. -/
theorem gpa_trend_eq_zero (db : DB) (sid : Int) :
    calculate_gpa_trend db sid = 0 := by
  unfold calculate_gpa_trend
  split
  · rfl
  · split <;> rfl

/-- With no tasks for the student, overdue load is 0. -/
theorem overdue_load_of_no_tasks (db : DB) (sid now : Int)
    (h : db.tasks.filter (fun t => t.student_id == sid) = []) :
    calculate_overdue_load db sid now = 0 := by
  have h1 := filter_sub_nil h
    (fun t => t.student_id == sid &&
      (isOpenStatus t.status && dueGE t (now - lookback_days * secondsPerDay)))
    (by
      intro a ha
      rw [Bool.and_eq_true] at ha
      exact ha.1)
  have h2 := filter_sub_nil h
    (fun t => t.student_id == sid &&
      (isOpenStatus t.status && (dueLT t now && dueGE t (now - lookback_days * secondsPerDay))))
    (by
      intro a ha
      rw [Bool.and_eq_true] at ha
      exact ha.1)
  simp only [calculate_overdue_load]
  rw [h1, h2]
  simp

/-- With no check-ins for the student, the mood trend is 0. -/
theorem mood_trend_of_no_checkins (db : DB) (sid now : Int)
    (h : db.checkins.filter (fun c => c.student_id == sid) = []) :
    calculate_mood_trend db sid now = 0 := by
  have h1 := filter_sub_nil h
    (fun c => c.student_id == sid &&
      (decide (now - lookback_days * secondsPerDay ≤ c.created_at) && c.mood.isSome))
    (by
      intro a ha
      rw [Bool.and_eq_true] at ha
      exact ha.1)
  simp only [calculate_mood_trend]
  rw [h1]
  rfl

/-- With no tasks for the student, the streak is 0. -/
theorem streak_of_no_tasks (db : DB) (sid now : Int)
    (h : db.tasks.filter (fun t => t.student_id == sid) = []) :
    calculate_streak db sid now = 0 := by
  have h1 := filter_sub_nil h
    (fun t => t.student_id == sid &&
      (t.status == TaskStatus.done && completedGE t (now - lookback_days * secondsPerDay)))
    (by
      intro a ha
      rw [Bool.and_eq_true] at ha
      exact ha.1)
  simp only [calculate_streak]
  rw [h1]
  rfl

/-- With no check-ins for the student, the engagement gap defaults to
`lookback_days = 14`. -/
theorem engagement_of_no_checkins (db : DB) (sid now : Int)
    (h : db.checkins.filter (fun c => c.student_id == sid) = []) :
    calculate_engagement db sid now = 14 := by
  have h1 := filter_sub_nil h
    (fun c => c.student_id == sid && decide (now - lookback_days * secondsPerDay ≤ c.created_at))
    (by
      intro a ha
      rw [Bool.and_eq_true] at ha
      exact ha.1)
  simp only [calculate_engagement]
  rw [h1]
  simp [lookback_days]

/-- With no goals for the student, the goal velocity defaults to 1. -/
theorem goal_velocity_of_no_goals (db : DB) (sid now : Int)
    (h : db.goals.filter (fun g => g.student_id == sid) = []) :
    calculate_goal_velocity db sid now = 1 := by
  have h1 := filter_sub_nil h
    (fun g => g.student_id == sid && targetGE g (now - lookback_days * secondsPerDay))
    (by
      intro a ha
      rw [Bool.and_eq_true] at ha
      exact ha.1)
  simp only [calculate_goal_velocity]
  rw [h1]
  rfl

/-- The backward scan never counts more days than it inspects. -/
theorem currentStreak_le (dates : List Int) :
    ∀ (maxDays : Nat) (asOf : Int), currentStreak dates asOf maxDays ≤ maxDays := by
  intro maxDays
  induction maxDays with
  | zero => intro asOf; simp [currentStreak]
  | succ n ih =>
    intro asOf
    by_cases h : asOf ∈ dates
    · simp only [currentStreak, if_pos h]
      exact Nat.succ_le_succ (ih (asOf - 1))
    · simp [currentStreak, h]

/-- Every day the backward scan counts is present in the set. -/
theorem currentStreak_mem (dates : List Int) :
    ∀ (maxDays : Nat) (asOf : Int) (i : Nat),
      i < currentStreak dates asOf maxDays → (asOf - (i : Int)) ∈ dates := by
  intro maxDays
  induction maxDays with
  | zero => intro asOf i hi; simp [currentStreak] at hi
  | succ n ih =>
    intro asOf i hi
    by_cases h : asOf ∈ dates
    · rw [currentStreak, if_pos h] at hi
      cases i with
      | zero => simpa using h
      | succ j =>
        have hj : j < currentStreak dates (asOf - 1) n := Nat.lt_of_succ_lt_succ hi
        have hcast : asOf - ((j + 1 : Nat) : Int) = (asOf - 1) - (j : Int) := by
          push_cast
          ring
        rw [hcast]
        exact ih (asOf - 1) j hj
    · rw [currentStreak, if_neg h] at hi
      exact absurd hi (Nat.not_lt_zero _)

/-- The backward scan stops exactly at the first missing day. -/
theorem currentStreak_stop (dates : List Int) :
    ∀ (maxDays : Nat) (asOf : Int),
      currentStreak dates asOf maxDays < maxDays →
        (asOf - (currentStreak dates asOf maxDays : Int)) ∉ dates := by
  intro maxDays
  induction maxDays with
  | zero => intro asOf h; exact absurd h (Nat.not_lt_zero _)
  | succ n ih =>
    intro asOf h
    by_cases hm : asOf ∈ dates
    · rw [currentStreak, if_pos hm] at h ⊢
      have hrec := ih (asOf - 1) (Nat.lt_of_succ_lt_succ h)
      have hcast : asOf - ((currentStreak dates (asOf - 1) n + 1 : Nat) : Int) =
          (asOf - 1) - (currentStreak dates (asOf - 1) n : Int) := by
        push_cast
        ring
      rw [hcast]
      exact hrec
    · rw [currentStreak, if_neg hm]
      simpa using hm

/-! ### Claim theorems -/

/-- C1: the severity classifier is a total function of the score with
boundaries exactly at 0.33 and 0.66: `s < 0.33` gives "low",
`0.33 ≤ s < 0.66` gives "medium", `s ≥ 0.66` gives "high"; in
particular `severity 0.329 = low`, `severity 0.33 = medium`,
`severity 0.659999 = medium`, `severity 0.66 = high`. -/
theorem C1_severity_thresholds :
    (∀ s : ℚ, s < 33 / 100 → get_severity s = "low") ∧
    (∀ s : ℚ, 33 / 100 ≤ s → s < 66 / 100 → get_severity s = "medium") ∧
    (∀ s : ℚ, 66 / 100 ≤ s → get_severity s = "high") ∧
    get_severity (329 / 1000) = "low" ∧
    get_severity (33 / 100) = "medium" ∧
    get_severity (659999 / 1000000) = "medium" ∧
    get_severity (66 / 100) = "high" := by
  refine ⟨?_, ?_, ?_, by norm_num [get_severity], by norm_num [get_severity],
    by norm_num [get_severity], by norm_num [get_severity]⟩
  · intro s h
    simp [get_severity, h]
  · intro s h1 h2
    have h1' : ¬s < 33 / 100 := not_lt.mpr h1
    simp [get_severity, h1', h2]
  · intro s h
    have h1 : ¬s < 33 / 100 := not_lt.mpr (le_trans (by norm_num) h)
    have h2 : ¬s < 66 / 100 := not_lt.mpr h
    simp [get_severity, h1, h2]

/-- Witness for C1: a concrete score below the 0.33 boundary is
classified "low". -/
theorem C1_severity_thresholds_witness :
    (1 / 10 : ℚ) < 33 / 100 ∧ get_severity (1 / 10) = "low" :=
  ⟨by norm_num, C1_severity_thresholds.1 (1 / 10) (by norm_num)⟩

/-- C6: `currentStreak` scans backward day-by-day from the as-of date
for up to `maxDays`, counts consecutive days present in the set, stops
at the first missing day, and returns an integer in `[0, maxDays]`;
with completion dates {today, today-1, today-2} plus a gap at today-3
it returns exactly 3 even if today-5 is also present. -/
theorem C6_currentStreak_spec :
    (∀ (dates : List Int) (asOf : Int) (maxDays : Nat),
        currentStreak dates asOf maxDays ≤ maxDays) ∧
    (∀ (dates : List Int) (asOf : Int) (maxDays : Nat) (i : Nat),
        i < currentStreak dates asOf maxDays → (asOf - (i : Int)) ∈ dates) ∧
    (∀ (dates : List Int) (asOf : Int) (maxDays : Nat),
        currentStreak dates asOf maxDays < maxDays →
          (asOf - (currentStreak dates asOf maxDays : Int)) ∉ dates) ∧
    currentStreak [0, -1, -2, -5] 0 14 = 3 :=
  ⟨fun dates asOf maxDays => currentStreak_le dates maxDays asOf,
   fun dates asOf maxDays i hi => currentStreak_mem dates maxDays asOf i hi,
   fun dates asOf maxDays h => currentStreak_stop dates maxDays asOf h,
   by decide⟩

/-- Witness for C6: on the concrete date set {0, -1, -2, -5} the day
one step back is counted (it is in the set) and the day right after
the returned streak of 3 is the first gap. -/
theorem C6_currentStreak_spec_witness :
    ((0 : Int) - ((1 : Nat) : Int)) ∈ ([0, -1, -2, -5] : List Int) ∧
    ((0 : Int) - ((currentStreak [0, -1, -2, -5] 0 14 : Nat) : Int)) ∉
      ([0, -1, -2, -5] : List Int) :=
  ⟨C6_currentStreak_spec.2.1 [0, -1, -2, -5] 0 14 1 (by decide),
   C6_currentStreak_spec.2.2.1 [0, -1, -2, -5] 0 14 (by decide)⟩

/-- Database exhibiting the engagement-normalizer bug: one check-in
whose stored timestamp lies two days in the future of `now`. -/
def dbC3 : DB :=
  { students := [{ id := 1, gpa := none, risk_score := 0 }]
    tasks := []
    checkins := [{ student_id := 1, mood := none, created_at := 100 * 86400 + 2 * 86400 }]
    goals := []
    events := [] }

/-- C3 (code bug): a check-in stored in the future makes the raw
engagement gap negative, and `_normalize_engagement` then returns
`-2/7`, outside the `[0, 1]` range promised by its own docstring. -/
theorem C3_engagement_normalizer_escapes_unit_interval :
    calculate_engagement dbC3 1 (100 * 86400) = -2 ∧
    normalize_engagement (calculate_engagement dbC3 1 (100 * 86400)) = -2 / 7 ∧
    normalize_engagement (calculate_engagement dbC3 1 (100 * 86400)) < 0 := by
  have hgap : calculate_engagement dbC3 1 (100 * 86400) = -2 := by decide
  refine ⟨hgap, ?_, ?_⟩ <;>
    rw [hgap] <;> norm_num [normalize_engagement, min_def]

/-- Five stored students with scores 0.1, 0.3, 0.5, 0.7, 0.9. -/
def dbC9 : DB :=
  { students :=
      [{ id := 1, gpa := none, risk_score := 1 / 10 },
       { id := 2, gpa := none, risk_score := 3 / 10 },
       { id := 3, gpa := none, risk_score := 5 / 10 },
       { id := 4, gpa := none, risk_score := 7 / 10 },
       { id := 5, gpa := none, risk_score := 9 / 10 }]
    tasks := []
    checkins := []
    goals := []
    events := [] }

/-- C9: `get_high_risk_students` returns exactly the students whose
currently stored risk score is at least the threshold (it reads the
stored score, recomputing nothing), the default threshold is 0.66, and
over stored scores [0.1, 0.3, 0.5, 0.7, 0.9] the threshold 0.6 selects
exactly the students scoring 0.7 and 0.9. -/
theorem C9_listHighRisk :
    (∀ (db : DB) (threshold : ℚ) (sid : Int) (score : ℚ),
        (sid, score) ∈ get_high_risk_students db threshold ↔
          ∃ s ∈ db.students, threshold ≤ s.risk_score ∧ s.id = sid ∧ s.risk_score = score) ∧
    high_risk_default_threshold = 66 / 100 ∧
    get_high_risk_students dbC9 (6 / 10) = [(4, 7 / 10), (5, 9 / 10)] := by
  refine ⟨?_, rfl, by norm_num [get_high_risk_students, dbC9, List.filter]⟩
  intro db threshold sid score
  simp only [get_high_risk_students, List.mem_map, List.mem_filter, decide_eq_true_eq,
    Prod.mk.injEq]
  constructor
  · rintro ⟨s, ⟨hs, hth⟩, hid, hscore⟩
    exact ⟨s, hs, hth, hid, hscore⟩
  · rintro ⟨s, hs, hth, hid, hscore⟩
    exact ⟨s, ⟨hs, hth⟩, hid, hscore⟩

/-- Witness for C9: student 4 with stored score 0.7 is reported at
threshold 0.6. -/
theorem C9_listHighRisk_witness :
    ((4 : Int), (7 / 10 : ℚ)) ∈ get_high_risk_students dbC9 (6 / 10) :=
  (C9_listHighRisk.1 dbC9 (6 / 10) 4 (7 / 10)).mpr
    ⟨{ id := 4, gpa := none, risk_score := 7 / 10 }, by norm_num [dbC9], by norm_num, rfl, rfl⟩

/-- C10 (code bug): the completion-rate computation of
`get_engagement_analytics` is never reached.  Its total-tasks query
reads `Task.created_at`, an attribute the ORM `Task` model does not
declare (while `completed_at`, read by the numerator query, does
exist), so every request raises `AttributeError` and no completion
rate at all is reported — in particular none exceeding 1.0, and a
"task created before the window" is not even representable on a
`Task` row. -/
theorem C10_completion_rate_never_reported :
    taskModelAttr "created_at" = none ∧
    taskModelAttr "completed_at" = some "completed_at" ∧
    ∀ (tasks : List Task) (sid now : Int),
      task_completion_rate tasks sid now = Except.error taskCreatedAtError := by
  refine ⟨?_, ?_, ?_⟩
  · simp [taskModelAttr, taskModelColumns]
  · simp [taskModelAttr, taskModelColumns]
  · intro tasks sid now
    rfl

/-- SQL `Task.due_date <= hi` (NULL rows excluded); used only by the
claim-side formula `overdue_load_claimed`. -/
def dueLE (t : Task) (hi : Int) : Bool :=
  match t.due_date with
  | some d => decide (d ≤ hi)
  | none => false

/-- The overdue-load factor as claim C4 words it: both counts
restricted to the window `[cutoff, now]`, so a task due after `now`
is in neither count.  Stated only for comparison with
`calculate_overdue_load`, whose denominator is bounded from below
only. -/
def overdue_load_claimed (db : DB) (sid now : Int) : ℚ :=
  let cutoff := now - lookback_days * secondsPerDay
  let total_open :=
    (db.tasks.filter fun t =>
      t.student_id == sid &&
        (isOpenStatus t.status && (dueGE t cutoff && dueLE t now))).length
  let overdue :=
    (db.tasks.filter fun t =>
      t.student_id == sid &&
        (isOpenStatus t.status && (dueGE t cutoff && dueLT t now))).length
  (overdue : ℚ) / (max total_open 1 : ℚ)

/-- Task history separating the code from claim C4: one open task
overdue inside the window and one open task due one day after `now`. -/
def dbC4 : DB :=
  { students := [{ id := 1, gpa := none, risk_score := 0 }]
    tasks :=
      [{ student_id := 1, due_date := some (99 * 86400), status := TaskStatus.todo,
         completed_at := none },
       { student_id := 1, due_date := some (101 * 86400), status := TaskStatus.todo,
         completed_at := none }]
    checkins := []
    goals := []
    events := [] }

/-- C4 counterexample: on a history with one overdue open task and one
open task due after `now`, the code counts the future-due task in the
denominator (factor 1/2) while the claim's window-restricted counts
give 1. -/
theorem C4_overdue_load_counterexample :
    calculate_overdue_load dbC4 1 (100 * 86400) = 1 / 2 ∧
    overdue_load_claimed dbC4 1 (100 * 86400) = 1 ∧
    calculate_overdue_load dbC4 1 (100 * 86400) ≠ overdue_load_claimed dbC4 1 (100 * 86400) := by
  have h1 : calculate_overdue_load dbC4 1 (100 * 86400) = 1 / 2 := by
    norm_num [calculate_overdue_load, dbC4, dueGE, dueLT, isOpenStatus, lookback_days,
      secondsPerDay, List.filter, max_def]
  have h2 : overdue_load_claimed dbC4 1 (100 * 86400) = 1 := by
    norm_num [overdue_load_claimed, dbC4, dueGE, dueLT, dueLE, isOpenStatus, lookback_days,
      secondsPerDay, List.filter, max_def]
  refine ⟨h1, h2, ?_⟩
  rw [h1, h2]
  norm_num

/-- C4 (amended): the overdue-load factor equals the number of open
tasks (state todo or doing) with `cutoff ≤ due < now` divided by the
number of open tasks with `cutoff ≤ due` — the denominator window has
no upper bound, so a task due after `now` still counts there — with
the denominator floored to 1; with no such open tasks the factor
is 0. -/
theorem C4_overdue_load_amended (db : DB) (sid now : Int) :
    calculate_overdue_load db sid now =
      ((db.tasks.countP fun t =>
          t.student_id == sid &&
            (isOpenStatus t.status &&
              (dueLT t now && dueGE t (now - lookback_days * secondsPerDay)))) : ℚ) /
        ((max (db.tasks.countP fun t =>
            t.student_id == sid &&
              (isOpenStatus t.status && dueGE t (now - lookback_days * secondsPerDay))) 1 : Nat) : ℚ) ∧
    ((db.tasks.countP fun t =>
        t.student_id == sid &&
          (isOpenStatus t.status && dueGE t (now - lookback_days * secondsPerDay))) = 0 →
      calculate_overdue_load db sid now = 0) := by
  constructor
  · simp [calculate_overdue_load, List.countP_eq_length_filter]
  · intro h0
    have hfil : db.tasks.filter
        (fun t => t.student_id == sid &&
          (isOpenStatus t.status && dueGE t (now - lookback_days * secondsPerDay))) = [] := by
      rwa [List.countP_eq_length_filter, List.length_eq_zero] at h0
    have hnum := filter_sub_nil hfil
      (fun t => t.student_id == sid &&
        (isOpenStatus t.status && (dueLT t now && dueGE t (now - lookback_days * secondsPerDay))))
      (by
        intro a ha
        simp only [Bool.and_eq_true] at ha ⊢
        exact ⟨ha.1, ha.2.1, ha.2.2.2⟩)
    simp only [calculate_overdue_load]
    rw [hnum]
    simp

/-- Witness for C4 (amended): a task history with no open task for the
student yields overdue load 0. -/
theorem C4_overdue_load_amended_witness :
    calculate_overdue_load dbC9 1 (100 * 86400) = 0 :=
  (C4_overdue_load_amended dbC9 1 (100 * 86400)).2 (by decide)

/-- The goal-velocity factor as claim C5 words it: the numerator
counts every goal of the student in state done whose target date is
absent or `≥ now` — unrestricted to the window — while the denominator
counts the goals with target date in the window.  Stated only for
comparison with `calculate_goal_velocity`, whose numerator is drawn
from the window goals (so its no-target-date branch is dead). -/
def goal_velocity_claimed (db : DB) (sid now : Int) : ℚ :=
  let cutoff := now - lookback_days * secondsPerDay
  let window_goals := db.goals.filter fun g => g.student_id == sid && targetGE g cutoff
  if window_goals.isEmpty then 1
  else
    let completed_on_time :=
      (db.goals.filter fun g =>
        g.student_id == sid &&
          (g.status == GoalStatus.done &&
            (match g.target_date with
             | some d => decide (now ≤ d)
             | none => true))).length
    (completed_on_time : ℚ) / (window_goals.length : ℚ)

/-- Goal history separating the code from claim C5: one done goal with
no target date and one open goal with target date inside the window. -/
def dbC5 : DB :=
  { students := [{ id := 1, gpa := none, risk_score := 0 }]
    tasks := []
    checkins := []
    goals :=
      [{ student_id := 1, target_date := none, status := GoalStatus.done },
       { student_id := 1, target_date := some (99 * 86400), status := GoalStatus.«open» }]
    events := [] }

/-- C5 counterexample: with one done no-target-date goal and one open
in-window goal, the code's numerator (drawn from the window goals,
which exclude NULL target dates) is 0 while the claim's numerator
counts the done goal, giving 1. -/
theorem C5_goal_velocity_counterexample :
    calculate_goal_velocity dbC5 1 (100 * 86400) = 0 ∧
    goal_velocity_claimed dbC5 1 (100 * 86400) = 1 ∧
    calculate_goal_velocity dbC5 1 (100 * 86400) ≠ goal_velocity_claimed dbC5 1 (100 * 86400) := by
  have h1 : calculate_goal_velocity dbC5 1 (100 * 86400) = 0 := by
    norm_num [calculate_goal_velocity, dbC5, targetGE, lookback_days, secondsPerDay,
      List.filter]
  have h2 : goal_velocity_claimed dbC5 1 (100 * 86400) = 1 := by
    norm_num [goal_velocity_claimed, dbC5, targetGE, lookback_days, secondsPerDay,
      List.filter]
  refine ⟨h1, h2, ?_⟩
  rw [h1, h2]
  norm_num

/-- C5 (amended): the goal-velocity factor equals the number of goals
with target date `≥ cutoff`, state done and target date `≥ now`,
divided by the number of goals with target date `≥ cutoff` (not
floored); when there are no such goals it is 1.0.  Goals with no
target date are excluded from both counts by the SQL NULL semantics
of `target_date >= cutoff`, so a student whose only goals are done
goals without target dates gets the no-goals default 1.0 rather than
having them counted in the numerator. -/
theorem C5_goal_velocity_amended (db : DB) (sid now : Int) :
    (calculate_goal_velocity db sid now =
      if (db.goals.filter fun g =>
            g.student_id == sid && targetGE g (now - lookback_days * secondsPerDay)).isEmpty
      then 1
      else
        ((db.goals.countP fun g =>
            g.student_id == sid &&
              (targetGE g (now - lookback_days * secondsPerDay) &&
                (g.status == GoalStatus.done && targetGE g now))) : ℚ) /
          ((db.goals.countP fun g =>
              g.student_id == sid && targetGE g (now - lookback_days * secondsPerDay)) : ℚ)) ∧
    ((db.goals.countP fun g =>
        g.student_id == sid && targetGE g (now - lookback_days * secondsPerDay)) = 0 →
      calculate_goal_velocity db sid now = 1) ∧
    ((∀ g ∈ db.goals, g.student_id = sid → g.target_date = none) →
      calculate_goal_velocity db sid now = 1) := by
  have hpred : ∀ g : Goal,
      ((g.status == GoalStatus.done &&
          (match g.target_date with
           | some d => decide (now ≤ d)
           | none => true)) &&
        (g.student_id == sid && targetGE g (now - lookback_days * secondsPerDay))) =
      (g.student_id == sid &&
        (targetGE g (now - lookback_days * secondsPerDay) &&
          (g.status == GoalStatus.done && targetGE g now))) := by
    intro g
    cases hg : g.target_date <;>
      simp [targetGE, hg, Bool.and_assoc, Bool.and_comm, Bool.and_left_comm]
  refine ⟨?_, ?_, ?_⟩
  · simp only [calculate_goal_velocity, List.countP_eq_length_filter, List.filter_filter,
      hpred]
  · intro h0
    have hfil : db.goals.filter
        (fun g => g.student_id == sid && targetGE g (now - lookback_days * secondsPerDay)) = [] := by
      rwa [List.countP_eq_length_filter, List.length_eq_zero] at h0
    simp only [calculate_goal_velocity]
    rw [hfil]
    rfl
  · intro hnone
    have hfil : db.goals.filter
        (fun g => g.student_id == sid && targetGE g (now - lookback_days * secondsPerDay)) = [] := by
      rw [List.filter_eq_nil_iff]
      intro g hg
      by_cases hsid : g.student_id = sid
      · simp [targetGE, hnone g hg hsid]
      · simp [hsid]
    simp only [calculate_goal_velocity]
    rw [hfil]
    rfl

/-- Goal history for the C5 witness: the student's only goals are done
goals with no target date. -/
def dbC5w : DB :=
  { students := [{ id := 1, gpa := none, risk_score := 0 }]
    tasks := []
    checkins := []
    goals :=
      [{ student_id := 1, target_date := none, status := GoalStatus.done },
       { student_id := 1, target_date := none, status := GoalStatus.done }]
    events := [] }

/-- Witness for C5 (amended): a student whose only goals are done
goals without target dates gets the no-goals default velocity 1. -/
theorem C5_goal_velocity_amended_witness :
    calculate_goal_velocity dbC5w 1 (100 * 86400) = 1 :=
  (C5_goal_velocity_amended dbC5w 1 (100 * 86400)).2.2 (by decide)

/-- Overwriting the stored score of `sid` is invisible to the id
lookup: `find?` by id returns the same student with the new score. -/
theorem find?_after_update (l : List Student) (sid : Int) (x : ℚ) (st : Student)
    (h : l.find? (fun s => s.id == sid) = some st) :
    (l.map fun s => if s.id == sid then { s with risk_score := x } else s).find?
        (fun s => s.id == sid) = some { st with risk_score := x } := by
  rw [List.find?_map]
  have hpred : ((fun s : Student => s.id == sid) ∘ fun s =>
      if s.id == sid then { s with risk_score := x } else s) =
      fun s : Student => s.id == sid := by
    funext s
    by_cases hs : (s.id == sid) = true <;> simp [Function.comp, hs]
  rw [hpred, h]
  have hst : (st.id == sid) = true := by simpa using List.find?_some h
  simp [hst]
  intro hne
  rw [beq_iff_eq] at hst
  exact absurd hst hne

/-- The risk breakdown reads only tasks, check-ins, goals and the
student's gpa (which never influences the placeholder factor), so two
states agreeing on those produce the same breakdown. -/
theorem risk_breakdown_congr (db db' : DB) (sid now : Int)
    (ht : db'.tasks = db.tasks) (hc : db'.checkins = db.checkins)
    (hg : db'.goals = db.goals) :
    risk_breakdown db' sid now = risk_breakdown db sid now := by
  simp only [risk_breakdown, calculate_overdue_load, calculate_mood_trend,
    calculate_streak, calculate_engagement, calculate_goal_velocity,
    gpa_trend_eq_zero, ht, hc, hg]

/-- `apply_update` leaves the history tables untouched. -/
theorem apply_update_tables (db : DB) (sid : Int) (rd : RiskResult) :
    (apply_update db sid rd).tasks = db.tasks ∧
    (apply_update db sid rd).checkins = db.checkins ∧
    (apply_update db sid rd).goals = db.goals :=
  ⟨rfl, rfl, rfl⟩

/-- After `apply_update` the student id still resolves and the risk
computation is unchanged. -/
theorem calculate_after_update (db : DB) (sid now : Int) (rd : RiskResult) (st : Student)
    (hfind : db.students.find? (fun s => s.id == sid) = some st) :
    calculate_student_risk (apply_update db sid rd) sid now =
      some (risk_breakdown db sid now) := by
  simp only [calculate_student_risk, apply_update]
  rw [find?_after_update _ _ _ _ hfind]
  exact congrArg some (risk_breakdown_congr db (apply_update db sid rd) sid now rfl rfl rfl)

/-- After `apply_update` the stored score is the committed one. -/
theorem stored_after_update (db : DB) (sid : Int) (rd : RiskResult) (st : Student)
    (hfind : db.students.find? (fun s => s.id == sid) = some st) :
    stored_risk_score (apply_update db sid rd) sid = some rd.risk_score := by
  simp only [stored_risk_score, apply_update]
  rw [find?_after_update _ _ _ _ hfind]
  rfl

/-- A successful update returns the breakdown and commits both writes. -/
theorem update_eq_of_find (db : DB) (sid now : Int) (st : Student)
    (hfind : db.students.find? (fun s => s.id == sid) = some st) :
    update_student_risk_score db sid now true =
      (some (risk_breakdown db sid now),
        apply_update db sid (risk_breakdown db sid now)) := by
  have hcalc : calculate_student_risk db sid now = some (risk_breakdown db sid now) := by
    simp only [calculate_student_risk, hfind]
  simp only [update_student_risk_score, hcalc, hfind, if_true]

/-- C2: for a student that exists but has zero tasks, zero check-ins
and zero goals, the scoring run yields raw factors
{overdue_load 0, mood_trend 0, streak 0, engagement 14,
goal_velocity 1, gpa_trend 0}, normalized factors
{0, 1/2, 1, 1, 0, 1/2}, composite score exactly 0.45 and severity
"medium". -/
theorem C2_zero_history_scoring (db : DB) (sid now : Int) (st : Student)
    (hfind : db.students.find? (fun s => s.id == sid) = some st)
    (htasks : db.tasks.filter (fun t => t.student_id == sid) = [])
    (hcheckins : db.checkins.filter (fun c => c.student_id == sid) = [])
    (hgoals : db.goals.filter (fun g => g.student_id == sid) = []) :
    calculate_student_risk db sid now = some
      { risk_score := 45 / 100
        factors := { overdue_load := 0, mood_trend := 0, streak := 0,
                     engagement := 14, goal_velocity := 1, gpa_trend := 0 }
        normalized_factors := { overdue_load := 0, mood_trend := 1 / 2, streak := 1,
                                engagement := 1, goal_velocity := 0, gpa_trend := 1 / 2 }
        severity := "medium" } := by
  have ho := overdue_load_of_no_tasks db sid now htasks
  have hm := mood_trend_of_no_checkins db sid now hcheckins
  have hs := streak_of_no_tasks db sid now htasks
  have he := engagement_of_no_checkins db sid now hcheckins
  have hv := goal_velocity_of_no_goals db sid now hgoals
  have hgpa := gpa_trend_eq_zero db sid
  simp only [calculate_student_risk, hfind, risk_breakdown, ho, hm, hs, he, hv, hgpa]
  norm_num [normalize_overdue_load, normalize_mood_trend, normalize_streak,
    normalize_engagement, normalize_goal_velocity, normalize_gpa_trend, weighted_sum,
    w_overdue_load, w_mood_trend, w_streak, w_engagement, w_goal_velocity, w_gpa_trend,
    get_severity, min_def, max_def]

/-- Student for the C2 witness. -/
def stC2 : Student := { id := 1, gpa := some (32 / 10), risk_score := 0 }

/-- Database for the C2 witness: the scored student has no records of
her own; another student's task, check-in and goal are present and
must not leak into her factors. -/
def dbC2 : DB :=
  { students := [stC2]
    tasks := [{ student_id := 2, due_date := some 0, status := TaskStatus.todo,
                completed_at := none }]
    checkins := [{ student_id := 2, mood := some 3, created_at := 0 }]
    goals := [{ student_id := 2, target_date := none, status := GoalStatus.done }]
    events := [] }

/-- Witness for C2: the concrete zero-history student scores exactly
0.45 with severity "medium". -/
theorem C2_zero_history_scoring_witness :
    calculate_student_risk dbC2 1 (14 * 86400) = some
      { risk_score := 45 / 100
        factors := { overdue_load := 0, mood_trend := 0, streak := 0,
                     engagement := 14, goal_velocity := 1, gpa_trend := 0 }
        normalized_factors := { overdue_load := 0, mood_trend := 1 / 2, streak := 1,
                                engagement := 1, goal_velocity := 0, gpa_trend := 1 / 2 }
        severity := "medium" } :=
  C2_zero_history_scoring dbC2 1 (14 * 86400) stC2 (by rfl) (by rfl) (by rfl) (by rfl)

/-- C7: `update_student_risk_score` commits the score overwrite and
the audit-event append atomically: every execution either leaves the
store exactly as it was or applies both writes (and only those two
writes) — no reachable state carries one without the other. -/
theorem C7_update_commits_score_and_event_atomically (db : DB) (sid now : Int)
    (commitOk : Bool) :
    (update_student_risk_score db sid now commitOk).2 = db ∨
    (∃ rd, (update_student_risk_score db sid now commitOk).1 = some rd ∧
      (update_student_risk_score db sid now commitOk).2.students =
        (db.students.map fun s =>
          if s.id == sid then { s with risk_score := rd.risk_score } else s) ∧
      (update_student_risk_score db sid now commitOk).2.events =
        db.events ++ [mkRiskEvent sid rd] ∧
      (update_student_risk_score db sid now commitOk).2.tasks = db.tasks ∧
      (update_student_risk_score db sid now commitOk).2.checkins = db.checkins ∧
      (update_student_risk_score db sid now commitOk).2.goals = db.goals) := by
  unfold update_student_risk_score
  cases hcalc : calculate_student_risk db sid now with
  | none => exact Or.inl rfl
  | some rd =>
    cases hfind : db.students.find? fun s => s.id == sid with
    | none => exact Or.inl rfl
    | some st =>
      cases commitOk with
      | false => exact Or.inl rfl
      | true => exact Or.inr ⟨rd, rfl, rfl, rfl, rfl, rfl, rfl⟩

/-- C8: with the underlying data and clock unchanged, updating twice
returns the same score both times and leaves the same stored score
after each call, while appending one audit event per call. -/
theorem C8_update_idempotent_in_effect (db : DB) (sid now : Int) (st : Student)
    (hfind : db.students.find? (fun s => s.id == sid) = some st) :
    (update_student_risk_score db sid now true).1 = some (risk_breakdown db sid now) ∧
    (update_student_risk_score ((update_student_risk_score db sid now true).2)
        sid now true).1 = some (risk_breakdown db sid now) ∧
    stored_risk_score ((update_student_risk_score db sid now true).2) sid =
      some (risk_breakdown db sid now).risk_score ∧
    stored_risk_score ((update_student_risk_score
        ((update_student_risk_score db sid now true).2) sid now true).2) sid =
      some (risk_breakdown db sid now).risk_score ∧
    ((update_student_risk_score ((update_student_risk_score db sid now true).2)
        sid now true).2).events =
      db.events ++ [mkRiskEvent sid (risk_breakdown db sid now),
        mkRiskEvent sid (risk_breakdown db sid now)] := by
  have eq1 := update_eq_of_find db sid now st hfind
  have hfind1 : (apply_update db sid (risk_breakdown db sid now)).students.find?
      (fun s => s.id == sid) =
      some { st with risk_score := (risk_breakdown db sid now).risk_score } :=
    find?_after_update _ _ _ _ hfind
  have hcongr : risk_breakdown (apply_update db sid (risk_breakdown db sid now)) sid now =
      risk_breakdown db sid now :=
    risk_breakdown_congr db _ sid now rfl rfl rfl
  have eq2 := update_eq_of_find (apply_update db sid (risk_breakdown db sid now))
    sid now _ hfind1
  rw [hcongr] at eq2
  refine ⟨?_, ?_, ?_, ?_, ?_⟩
  · rw [eq1]
  · rw [eq1, eq2]
  · rw [eq1]
    exact stored_after_update db sid _ st hfind
  · rw [eq1, eq2]
    exact stored_after_update _ sid _ _ hfind1
  · rw [eq1, eq2]
    simp [apply_update, List.append_assoc]

/-- Database for the C8 witness: a single student with no history. -/
def dbC8 : DB :=
  { students := [{ id := 7, gpa := none, risk_score := 0 }]
    tasks := []
    checkins := []
    goals := []
    events := [] }

/-- Witness for C8: on the concrete one-student store, both calls
return the breakdown and the second call leaves exactly two appended
audit events. -/
theorem C8_update_idempotent_in_effect_witness :
    (update_student_risk_score dbC8 7 0 true).1 = some (risk_breakdown dbC8 7 0) ∧
    ((update_student_risk_score ((update_student_risk_score dbC8 7 0 true).2)
        7 0 true).2).events =
      dbC8.events ++ [mkRiskEvent 7 (risk_breakdown dbC8 7 0),
        mkRiskEvent 7 (risk_breakdown dbC8 7 0)] :=
  ⟨(C8_update_idempotent_in_effect dbC8 7 0 { id := 7, gpa := none, risk_score := 0 }
      (by rfl)).1,
   (C8_update_idempotent_in_effect dbC8 7 0 { id := 7, gpa := none, risk_score := 0 }
      (by rfl)).2.2.2.2⟩

end Momentum
